import Mathlib

/-!
Verification of the row-stream marker/counting pipeline.

The development shallowly embeds the two Python variants of the pipeline:
`champion_code.py` (query builder `build_filter_query`, radius banding
`_radius`, the closure `process_row`, and the three fetch-strategy driver
loops of `run_full_benchmark`) and
`benchmark_update_filters_and_markers.py` (`create_marker_data`).

SQLite cell values are modelled by `Cell` (NULL, numeric, text); Python
floats are modelled by exact rationals; `float(...)` applied to a string is
modelled by the executable parser `pyFloatOfChars`; the unseeded random
draws are modelled by explicit rational parameters (a stream `ℕ → ℚ` for
the champion pipeline, whose cursor is threaded through the state).
-/

/-- A SQLite cell as seen by the Python code: NULL, a number (INTEGER or
REAL, modelled exactly by a rational), or TEXT. -/
inductive Cell where
  | null : Cell
  | num : ℚ → Cell
  | text : String → Cell
deriving DecidableEq, Repr

/-- Python truthiness of a cell: `None`, `0` and `""` are falsy. -/
def truthy : Cell → Bool
  | Cell.null => false
  | Cell.num q => q != 0
  | Cell.text s => s != ""

/-- Numeric value of a decimal digit character. -/
def digitVal (c : Char) : ℕ := c.toNat - '0'.toNat

/-- Value of a digit string read in base 10. -/
def digitsToNat (l : List Char) : ℕ := l.foldl (fun a c => a * 10 + digitVal c) 0

/-- Leading optional sign of a float literal, as a factor. -/
def parseSignQ : List Char → ℚ × List Char
  | '+' :: r => (1, r)
  | '-' :: r => (-1, r)
  | l => (1, l)

/-- Mantissa of a float literal: digits, optionally with a decimal point;
at least one digit overall (Python accepts `1.`, `.5`, `7`). -/
def parseMantissa (l : List Char) : Option (ℚ × List Char) :=
  let ip := l.takeWhile Char.isDigit
  let r1 := l.dropWhile Char.isDigit
  match r1 with
  | '.' :: r2 =>
      let fp := r2.takeWhile Char.isDigit
      let r3 := r2.dropWhile Char.isDigit
      if ip.isEmpty && fp.isEmpty then none
      else some ((digitsToNat ip : ℚ) + (digitsToNat fp : ℚ) / (10 : ℚ) ^ fp.length, r3)
  | _ => if ip.isEmpty then none else some ((digitsToNat ip : ℚ), r1)

/-- Signed digit string of an exponent part. -/
def parseExpDigits (l : List Char) : Option (ℤ × List Char) :=
  let sr : ℤ × List Char :=
    match l with
    | '+' :: r => (1, r)
    | '-' :: r => (-1, r)
    | _ => (1, l)
  let ds := sr.2.takeWhile Char.isDigit
  let rest := sr.2.dropWhile Char.isDigit
  if ds.isEmpty then none else some (sr.1 * (digitsToNat ds : ℤ), rest)

/-- Optional `e`/`E` exponent part of a float literal. -/
def parseExpPart : List Char → Option (ℤ × List Char)
  | 'e' :: r => parseExpDigits r
  | 'E' :: r => parseExpDigits r
  | l => some (0, l)

/-- Scale a rational by a signed power of ten. -/
def applyExp (q : ℚ) (e : ℤ) : ℚ :=
  if 0 ≤ e then q * (10 : ℚ) ^ e.toNat else q / (10 : ℚ) ^ (-e).toNat

/-- Model of Python `float(s)` on a character list: surrounding whitespace
stripped, then sign, mantissa and exponent; `none` models `ValueError`.
(Finite literals only; the claims concern finite parses.) -/
def pyFloatOfChars (l : List Char) : Option ℚ :=
  let l1 := l.dropWhile Char.isWhitespace
  let l2 := (l1.reverse.dropWhile Char.isWhitespace).reverse
  let sg := parseSignQ l2
  match parseMantissa sg.2 with
  | none => none
  | some mr =>
    match parseExpPart mr.2 with
    | none => none
    | some er => if er.2.isEmpty then some (sg.1 * applyExp mr.1 er.1) else none

/-- Model of Python `float(s)` on a string. -/
def pyFloatOfString (s : String) : Option ℚ := pyFloatOfChars s.data

/-- Model of Python `float(v)` on a cell: `None` raises `TypeError`
(modelled as `none`), numbers convert, text is parsed. -/
def pyFloatOfCell : Cell → Option ℚ
  | Cell.null => none
  | Cell.num q => some q
  | Cell.text s => pyFloatOfChars s.data

/-- `_radius` from both source files: four emission bands. -/
def _radius (e : ℚ) : ℚ :=
  if e < 51126 then 10.0
  else if e < 235483.5677 then 16.67
  else if e < 1212860.6667 then 23.33
  else 40.0

/-- C1: the radius classification returns 10.0 for `e < 51126`, 16.67 on
`[51126, 235483.5677)`, 23.33 on `[235483.5677, 1212860.6667)`, and 40.0
for `e ≥ 1212860.6667`; each boundary is lower-inclusive / upper-exclusive,
so 51126 maps to 16.67, 235483.5677 to 23.33 and 1212860.6667 to 40.0. -/
theorem radius_banding_spec (e : ℚ) :
    (e < 51126 → _radius e = 10.0) ∧
    (51126 ≤ e → e < 235483.5677 → _radius e = 16.67) ∧
    (235483.5677 ≤ e → e < 1212860.6667 → _radius e = 23.33) ∧
    (1212860.6667 ≤ e → _radius e = 40.0) ∧
    _radius 51126 = 16.67 ∧ _radius 235483.5677 = 23.33 ∧
    _radius 1212860.6667 = 40.0 := by
  refine ⟨fun h => ?_, fun h1 h2 => ?_, fun h1 h2 => ?_, fun h1 => ?_, ?_, ?_, ?_⟩
  · simp only [_radius, if_pos h]
  · simp only [_radius, if_neg (not_lt.mpr h1), if_pos h2]
  · have hb : ¬ e < 51126 := not_lt.mpr (le_trans (by norm_num) h1)
    simp only [_radius, if_neg hb, if_neg (not_lt.mpr h1), if_pos h2]
  · have hb : ¬ e < 51126 := not_lt.mpr (le_trans (by norm_num) h1)
    have hc : ¬ e < 235483.5677 := not_lt.mpr (le_trans (by norm_num) h1)
    simp only [_radius, if_neg hb, if_neg hc, if_neg (not_lt.mpr h1)]
  · norm_num [_radius]
  · norm_num [_radius]
  · norm_num [_radius]

/-- Witness for C1 at concrete inputs on each side of the first boundary. -/
theorem radius_banding_spec_witness :
    _radius 51125 = 10.0 ∧ _radius 51126 = 16.67 := by
  exact ⟨(radius_banding_spec 51125).1 (by norm_num),
         (radius_banding_spec 51126).2.1 (by norm_num) (by norm_num)⟩

/-- A result row restricted to the six columns both benchmarks select
(`Project_ID`, `Project_Type`, `SourceDB`, `Country`, `geolocation`,
`Estimated_Annual_Emission_Reductions`). -/
structure Row where
  geolocation : Cell
  emissions : Cell
  project_id : Cell
  project_type : Cell
  sourceDB : Cell
  country : Cell
deriving DecidableEq, Repr

/-- Which of the six column names the `col_idx.get` lookups resolved: a
`false` field models `col_idx.get(name) is None` for that column. -/
structure Schema where
  hasGeo : Bool
  hasEmis : Bool
  hasId : Bool
  hasType : Bool
  hasSource : Bool
  hasCountry : Bool
deriving DecidableEq, Repr

/-- The schema of the benchmark runs: all six columns selected. -/
def fullSchema : Schema :=
  { hasGeo := true, hasEmis := true, hasId := true,
    hasType := true, hasSource := true, hasCountry := true }

/-- A map-display marker as built by both variants. -/
structure Marker where
  lat : ℚ
  lon : ℚ
  radius : ℚ
  project_id : Cell
  project_type : Cell
deriving DecidableEq, Repr

/-- Split a character list at the first occurrence of `sep` (the common
core of Python `str.partition(sep)` and `str.split(sep, 1)`); `none` when
`sep` does not occur. -/
def splitFirst (sep : Char) : List Char → Option (List Char × List Char)
  | [] => none
  | c :: cs =>
    if c = sep then some ([], cs)
    else
      match splitFirst sep cs with
      | none => none
      | some p => some (c :: p.1, p.2)

/-- Outcome classes of the `try` block of champion `process_row`, before
the jitter is mixed in: success (parsed latitude, longitude, emission,
plus the raw id and type cells), the early `return` taken when the
validation condition fails, an exception raised before the `rand()` call,
or an exception raised after it. -/
inductive CoreOutcome where
  | ok : ℚ → ℚ → ℚ → Cell → Cell → CoreOutcome
  | earlyReturn : CoreOutcome
  | excNoRand : CoreOutcome
  | excRand : CoreOutcome
deriving DecidableEq, Repr

/-- The `try` block of champion `process_row` up to the marker fields:
`row[geo_idx]` / `row[emis_idx]` with a missing index raise `TypeError`;
the combined check `geolocation and ',' in geolocation and emissions_val
is not None` returns early on falsy/comma-less geolocation or null
emission and raises `TypeError` on a truthy non-text geolocation;
`float(emissions_val)` and the two coordinate parses can fail; the
`row[id_idx]` / `row[type_idx]` lookups sit after the `rand()` call. -/
def markerCore (sch : Schema) (row : Row) : CoreOutcome :=
  if sch.hasGeo = false then CoreOutcome.excNoRand
  else if sch.hasEmis = false then CoreOutcome.excNoRand
  else
    match row.geolocation with
    | Cell.null => CoreOutcome.earlyReturn
    | Cell.num q => if q = 0 then CoreOutcome.earlyReturn else CoreOutcome.excNoRand
    | Cell.text s =>
      match splitFirst ',' s.data with
      | none => CoreOutcome.earlyReturn
      | some lp =>
        if row.emissions = Cell.null then CoreOutcome.earlyReturn
        else
          match pyFloatOfCell row.emissions with
          | none => CoreOutcome.excNoRand
          | some e =>
            match pyFloatOfChars lp.1 with
            | none => CoreOutcome.excRand
            | some la =>
              match pyFloatOfChars lp.2 with
              | none => CoreOutcome.excRand
              | some lo =>
                if sch.hasId = false then CoreOutcome.excRand
                else if sch.hasType = false then CoreOutcome.excRand
                else CoreOutcome.ok la lo e row.project_id row.project_type

/-- The champion jitter: `rand() * 2e-4 - 1e-4` for a draw `r` of
`random.random()`. -/
def jitterOf (r : ℚ) : ℚ := r * (2 / 10000) - 1 / 10000

/-- Per-row outcome of champion marker synthesis: the single jitter value
`j` of the row is added to both coordinates. -/
inductive RowOutcome where
  | marker : Marker → RowOutcome
  | earlyReturn : RowOutcome
  | excNoRand : RowOutcome
  | excRand : RowOutcome
deriving DecidableEq, Repr

/-- Champion marker synthesis for one row, at jitter value `j`. -/
def markerAttempt (sch : Schema) (row : Row) (j : ℚ) : RowOutcome :=
  match markerCore sch row with
  | CoreOutcome.ok la lo e pid pty =>
      RowOutcome.marker
        { lat := la + j, lon := lo + j, radius := _radius e,
          project_id := pid, project_type := pty }
  | CoreOutcome.earlyReturn => RowOutcome.earlyReturn
  | CoreOutcome.excNoRand => RowOutcome.excNoRand
  | CoreOutcome.excRand => RowOutcome.excRand

/-- Recognizer for the marker outcome. -/
def isMarkerOutcome : RowOutcome → Bool
  | RowOutcome.marker _ => true
  | _ => false

/-- The `try` body of `create_marker_data` from the batch-variant file, up
to the marker fields: `col_idx[...]` raises `KeyError` on a missing
column, geolocation must be truthy text containing a comma, the emission
and the project id must both be non-null, and the two coordinates and the
emission must parse; every failure is caught and yields `None`. -/
def batchCore (sch : Schema) (row : Row) : Option (ℚ × ℚ × ℚ × Cell × Cell) :=
  if sch.hasGeo = false then none
  else
    match row.geolocation with
    | Cell.null => none
    | Cell.num _ => none
    | Cell.text s =>
      match splitFirst ',' s.data with
      | none => none
      | some lp =>
        if sch.hasEmis = false then none
        else if sch.hasId = false then none
        else if sch.hasType = false then none
        else if row.emissions = Cell.null then none
        else if row.project_id = Cell.null then none
        else
          match pyFloatOfChars lp.1 with
          | none => none
          | some la =>
            match pyFloatOfChars lp.2 with
            | none => none
            | some lo =>
              match pyFloatOfCell row.emissions with
              | none => none
              | some e => some (la, lo, e, row.project_id, row.project_type)

/-- `create_marker_data` from the batch-variant file: `j1` and `j2` are
the two independent `random.uniform(-1e-4, 1e-4)` draws. -/
def create_marker_data (sch : Schema) (row : Row) (j1 j2 : ℚ) : Option Marker :=
  match batchCore sch row with
  | none => none
  | some (la, lo, e, pid, pty) =>
      some { lat := la + j1, lon := lo + j2, radius := _radius e,
             project_id := pid, project_type := pty }

/-- Marker list produced from one fetched chunk by the batch-variant loop
(each row paired with its two uniform draws):
`[m for m in (create_marker_data(r, col_idx) for r in chunk) if m]`. -/
def markersOfChunk (sch : Schema) (rows : List (Row × ℚ × ℚ)) : List Marker :=
  rows.filterMap (fun t => create_marker_data sch t.1 t.2.1 t.2.2)

/-- Quote a column name in backticks, as the f-strings of both variants do. -/
def quoteCol (c : String) : String := "`" ++ c ++ "`"

/-- The SELECT clause of `build_filter_query`: individually quoted columns
joined by `", "`, or `*` when the projection list is empty. -/
def selectClause (columns : List String) : String :=
  if columns.isEmpty then "*" else String.intercalate ", " (columns.map quoteCol)

/-- `','.join(['?'] * len(sources))`. -/
def placeholderList (n : ℕ) : String := String.intercalate "," (List.replicate n "?")

/-- `build_filter_query` from `champion_code.py`, with the filter
specification reduced to its only read key `sources`: returns the query
string and the ordered parameter list. -/
def build_filter_query (sources : List String) (columns : List String) :
    String × List String :=
  let base_query := "SELECT " ++ selectClause columns ++ " FROM `mytable`"
  if sources.isEmpty then (base_query, [])
  else
    (base_query ++ " WHERE " ++ "`SourceDB` IN (" ++
       placeholderList sources.length ++ ") COLLATE NOCASE",
     sources)

/-- Mutable state of the processing loop of `run_full_benchmark`: the row
counter, the cursor into the random stream, the marker list and the three
counting tables (as total count functions over cell values). -/
structure BState where
  total : ℕ
  rng : ℕ
  markers : List Marker
  srcCounts : Cell → ℕ
  typeCounts : Cell → ℕ
  ctryCounts : Cell → ℕ

/-- The all-empty state at the start of `run_full_benchmark`. -/
def initState : BState :=
  { total := 0, rng := 0, markers := [],
    srcCounts := fun _ => 0, typeCounts := fun _ => 0, ctryCounts := fun _ => 0 }

/-- `counts.get(val, 0) + 1` stored back at key `val`. -/
def bump (t : Cell → ℕ) (k : Cell) : Cell → ℕ :=
  fun x => if x = k then t k + 1 else t x

/-- The counting logic at the end of champion `process_row`: each of the
three tables is bumped when its column index resolved and the row's value
is truthy. -/
def countRow (sch : Schema) (row : Row) (st : BState) : BState :=
  { st with
    srcCounts :=
      if sch.hasSource && truthy row.sourceDB then bump st.srcCounts row.sourceDB
      else st.srcCounts,
    typeCounts :=
      if sch.hasType && truthy row.project_type then bump st.typeCounts row.project_type
      else st.typeCounts,
    ctryCounts :=
      if sch.hasCountry && truthy row.country then bump st.ctryCounts row.country
      else st.ctryCounts }

/-- Champion `process_row` on one row: the row counter always advances;
a successful attempt appends one marker and consumes one random draw; the
early `return` of the validation check skips the counting logic entirely;
a caught exception skips the marker but still counts, consuming a draw
exactly when it was raised after the `rand()` call. -/
def processRow (jf : ℕ → ℚ) (sch : Schema) (st : BState) (row : Row) : BState :=
  let st1 : BState := { st with total := st.total + 1 }
  match markerAttempt sch row (jitterOf (jf st1.rng)) with
  | RowOutcome.marker m =>
      countRow sch row { st1 with markers := st1.markers ++ [m], rng := st1.rng + 1 }
  | RowOutcome.earlyReturn => st1
  | RowOutcome.excNoRand => countRow sch row st1
  | RowOutcome.excRand => countRow sch row { st1 with rng := st1.rng + 1 }

/-- The `'iterate'` strategy: `for row in cursor: process_row(row)`. -/
def runIterate (jf : ℕ → ℚ) (sch : Schema) (st : BState) (rows : List Row) : BState :=
  rows.foldl (processRow jf sch) st

/-- The `'fetchall'` strategy: materialize all rows, then process them in
order. -/
def runFetchall (jf : ℕ → ℚ) (sch : Schema) (st : BState) (rows : List Row) : BState :=
  let allRows := rows.foldr List.cons []
  allRows.foldl (processRow jf sch) st

/-- One `cursor.fetchmany(b)` call on the remaining rows: a non-positive
size returns all remaining rows (observed CPython `sqlite3` behaviour),
otherwise the next `b` rows. -/
def fetchManyChunk (b : ℤ) (rows : List Row) : List Row × List Row :=
  if b ≤ 0 then (rows, []) else (rows.take b.toNat, rows.drop b.toNat)

/-- A non-empty fetched chunk strictly shrinks the remaining row list. -/
theorem fetchManyChunk_progress (b : ℤ) (rows : List Row)
    (h : (fetchManyChunk b rows).1.isEmpty = false) :
    (fetchManyChunk b rows).2.length < rows.length := by
  unfold fetchManyChunk at *
  by_cases hb : b ≤ 0
  · rw [if_pos hb] at h ⊢
    cases rows with
    | nil => simp at h
    | cons a l => simp
  · rw [if_neg hb] at h ⊢
    have hbn : 0 < b.toNat := by omega
    cases rows with
    | nil => simp at h
    | cons a l =>
      simp only [List.length_drop, List.length_cons]
      omega

/-- The `'fetchmany'` strategy: repeat `cursor.fetchmany(arraysize)` and
process each chunk, until an empty chunk breaks the loop. -/
def runFetchmany (jf : ℕ → ℚ) (sch : Schema) (b : ℤ) (st : BState)
    (rows : List Row) : BState :=
  let c := fetchManyChunk b rows
  if h : c.1.isEmpty then st
  else runFetchmany jf sch b (c.1.foldl (processRow jf sch) st) c.2
termination_by rows.length
decreasing_by
  exact fetchManyChunk_progress b rows (by simpa using h)

/-- Splitting at the first separator of `a ++ ',' :: b` returns `(a, b)`
when `a` is separator-free. -/
theorem splitFirst_append_eq (a b : List Char) (h : ',' ∉ a) :
    splitFirst ',' (a ++ ',' :: b) = some (a, b) := by
  induction a with
  | nil => simp [splitFirst]
  | cons c cs ih =>
    have hc : ¬ c = ',' := fun e => h (by simp [e])
    have hcs : ',' ∉ cs := fun e => h (List.mem_cons_of_mem _ e)
    simp [splitFirst, hc, ih hcs]

/-- A parsed cell is not the null cell. -/
theorem ne_null_of_pyFloat {c : Cell} {e : ℚ} (h : pyFloatOfCell c = some e) :
    c ≠ Cell.null := by
  intro hn
  rw [hn] at h
  simp [pyFloatOfCell] at h

/-- Champion row validation succeeds on a text geolocation with a
separator, parseable coordinates on both sides of its first separator,
and a parseable emission value. -/
theorem markerCore_ok_of (row : Row) (s : String) (latC lonC : List Char)
    (la lo e : ℚ)
    (hgeo : row.geolocation = Cell.text s)
    (hs : s.data = latC ++ ',' :: lonC)
    (hnc : ',' ∉ latC)
    (he : pyFloatOfCell row.emissions = some e)
    (hla : pyFloatOfChars latC = some la)
    (hlo : pyFloatOfChars lonC = some lo) :
    markerCore fullSchema row =
      CoreOutcome.ok la lo e row.project_id row.project_type := by
  have hnn : row.emissions ≠ Cell.null := ne_null_of_pyFloat he
  simp only [markerCore, fullSchema, hgeo, hs, splitFirst_append_eq latC lonC hnc,
    if_neg hnn, he, hla, hlo]
  rfl

/-- Batch row validation succeeds under the same conditions plus a
non-null project id. -/
theorem batchCore_ok_of (row : Row) (s : String) (latC lonC : List Char)
    (la lo e : ℚ)
    (hgeo : row.geolocation = Cell.text s)
    (hs : s.data = latC ++ ',' :: lonC)
    (hnc : ',' ∉ latC)
    (he : pyFloatOfCell row.emissions = some e)
    (hla : pyFloatOfChars latC = some la)
    (hlo : pyFloatOfChars lonC = some lo)
    (hpid : row.project_id ≠ Cell.null) :
    batchCore fullSchema row =
      some (la, lo, e, row.project_id, row.project_type) := by
  have hnn : row.emissions ≠ Cell.null := ne_null_of_pyFloat he
  simp only [batchCore, fullSchema, hgeo, hs, splitFirst_append_eq latC lonC hnc,
    if_neg hnn, if_neg hpid, he, hla, hlo]
  rfl

/-- A null project id forces `create_marker_data`'s core to `None`. -/
theorem batchCore_none_of_pid_null (sch : Schema) (row : Row)
    (h : row.project_id = Cell.null) : batchCore sch row = none := by
  unfold batchCore
  by_cases h1 : sch.hasGeo = false
  · rw [if_pos h1]
  · rw [if_neg h1]
    cases hg : row.geolocation with
    | null => rfl
    | num q => rfl
    | text s =>
      cases hsp : splitFirst ',' s.data with
      | none => simp [hsp]
      | some lp =>
        simp only [hsp]
        split_ifs with h2 h3 h4 h5 <;> rfl

/-- `process_row` on a fully validated row: one marker is appended, one
random draw is consumed, then the counting logic runs. -/
theorem processRow_of_core_ok (jf : ℕ → ℚ) (sch : Schema) (st : BState)
    (row : Row) (la lo e : ℚ) (pid pty : Cell)
    (hc : markerCore sch row = CoreOutcome.ok la lo e pid pty) :
    processRow jf sch st row =
      countRow sch row
        { st with
          total := st.total + 1,
          markers := st.markers ++
            [{ lat := la + jitterOf (jf st.rng), lon := lo + jitterOf (jf st.rng),
               radius := _radius e, project_id := pid, project_type := pty }],
          rng := st.rng + 1 } := by
  simp only [processRow, markerAttempt, hc]

/-- `process_row` on a row that takes the early `return`: only the row
counter changes; in particular the counting logic is skipped. -/
theorem processRow_of_core_early (jf : ℕ → ℚ) (sch : Schema) (st : BState)
    (row : Row) (hc : markerCore sch row = CoreOutcome.earlyReturn) :
    processRow jf sch st row = { st with total := st.total + 1 } := by
  simp only [processRow, markerAttempt, hc]

/-- `process_row` on a row whose exception is raised before the `rand()`
call: no marker, no draw, but the counting logic runs. -/
theorem processRow_of_core_excNoRand (jf : ℕ → ℚ) (sch : Schema) (st : BState)
    (row : Row) (hc : markerCore sch row = CoreOutcome.excNoRand) :
    processRow jf sch st row = countRow sch row { st with total := st.total + 1 } := by
  simp only [processRow, markerAttempt, hc]

/-- `process_row` on a row whose exception is raised after the `rand()`
call: no marker, one draw consumed, and the counting logic runs. -/
theorem processRow_of_core_excRand (jf : ℕ → ℚ) (sch : Schema) (st : BState)
    (row : Row) (hc : markerCore sch row = CoreOutcome.excRand) :
    processRow jf sch st row =
      countRow sch row { st with total := st.total + 1, rng := st.rng + 1 } := by
  simp only [processRow, markerAttempt, hc]

/-- The counting logic never touches the marker list. -/
theorem countRow_markers (sch : Schema) (row : Row) (st : BState) :
    (countRow sch row st).markers = st.markers := rfl

/-- The counting logic never touches the row counter. -/
theorem countRow_total (sch : Schema) (row : Row) (st : BState) :
    (countRow sch row st).total = st.total := rfl

/-- The counting logic never touches the random cursor. -/
theorem countRow_rng (sch : Schema) (row : Row) (st : BState) :
    (countRow sch row st).rng = st.rng := rfl

/-- `bump` increments exactly the bumped key. -/
theorem bump_self (t : Cell → ℕ) (k : Cell) : bump t k k = t k + 1 := if_pos rfl

/-- `bump` leaves every other key unchanged. -/
theorem bump_other (t : Cell → ℕ) (k k' : Cell) (h : k' ≠ k) :
    bump t k k' = t k' := if_neg h

/-- `bump` never decreases a count. -/
theorem bump_le (t : Cell → ℕ) (k k' : Cell) : t k' ≤ bump t k k' := by
  unfold bump
  by_cases h : k' = k
  · subst h; simp
  · rw [if_neg h]

/-- If a row does not validate into a marker, `process_row` leaves the
marker list untouched. -/
theorem processRow_markers_of_not_ok (jf : ℕ → ℚ) (sch : Schema) (st : BState)
    (row : Row)
    (h : ∀ la lo e pid pty, markerCore sch row ≠ CoreOutcome.ok la lo e pid pty) :
    (processRow jf sch st row).markers = st.markers := by
  cases hc : markerCore sch row with
  | ok la lo e pid pty => exact absurd hc (h la lo e pid pty)
  | earlyReturn => rw [processRow_of_core_early jf sch st row hc]
  | excNoRand => rw [processRow_of_core_excNoRand jf sch st row hc, countRow_markers]
  | excRand => rw [processRow_of_core_excRand jf sch st row hc, countRow_markers]

/-- A null emission value never validates in the champion variant. -/
theorem markerCore_ne_ok_of_emis_null (sch : Schema) (row : Row)
    (h : row.emissions = Cell.null) :
    ∀ la lo e pid pty, markerCore sch row ≠ CoreOutcome.ok la lo e pid pty := by
  intro la lo e pid pty
  unfold markerCore
  by_cases h1 : sch.hasGeo = false
  · simp [h1]
  · rw [if_neg h1]
    by_cases h2 : sch.hasEmis = false
    · simp [h2]
    · rw [if_neg h2]
      cases hg : row.geolocation with
      | null => simp
      | num q => by_cases hq : q = 0 <;> simp [hq]
      | text s =>
        cases hsp : splitFirst ',' s.data with
        | none => simp [hsp]
        | some lp => simp [hsp, h]

/-- A null geolocation takes the early `return` in the champion variant. -/
theorem markerCore_early_of_geo_null (sch : Schema) (row : Row)
    (hgf : sch.hasGeo = true) (hef : sch.hasEmis = true)
    (h : row.geolocation = Cell.null) :
    markerCore sch row = CoreOutcome.earlyReturn := by
  simp [markerCore, hgf, hef, h]

/-- A text geolocation without a separator takes the early `return` in
the champion variant. -/
theorem markerCore_early_of_no_sep (sch : Schema) (row : Row) (s : String)
    (hgf : sch.hasGeo = true) (hef : sch.hasEmis = true)
    (h : row.geolocation = Cell.text s) (hsp : splitFirst ',' s.data = none) :
    markerCore sch row = CoreOutcome.earlyReturn := by
  simp [markerCore, hgf, hef, h, hsp]

/-- A null emission value yields `None` from the batch variant's core. -/
theorem batchCore_none_of_emis_null (sch : Schema) (row : Row)
    (h : row.emissions = Cell.null) : batchCore sch row = none := by
  unfold batchCore
  by_cases h1 : sch.hasGeo = false
  · rw [if_pos h1]
  · rw [if_neg h1]
    cases hg : row.geolocation with
    | null => rfl
    | num q => rfl
    | text s =>
      cases hsp : splitFirst ',' s.data with
      | none => simp [hsp]
      | some lp =>
        simp only [hsp]
        split_ifs <;> rfl

/-- A null geolocation yields `None` from the batch variant's core. -/
theorem batchCore_none_of_geo_null (sch : Schema) (row : Row)
    (h : row.geolocation = Cell.null) : batchCore sch row = none := by
  unfold batchCore
  by_cases h1 : sch.hasGeo = false
  · rw [if_pos h1]
  · rw [if_neg h1]; simp [h]

/-- A text geolocation without a separator yields `None` from the batch
variant's core. -/
theorem batchCore_none_of_no_sep (sch : Schema) (row : Row) (s : String)
    (h : row.geolocation = Cell.text s) (hsp : splitFirst ',' s.data = none) :
    batchCore sch row = none := by
  unfold batchCore
  by_cases h1 : sch.hasGeo = false
  · rw [if_pos h1]
  · rw [if_neg h1]; simp [h, hsp]

/-- Materializing the cursor (`fetchall`) reproduces the row sequence. -/
theorem foldr_cons_nil (l : List Row) : l.foldr List.cons [] = l := by
  induction l with
  | nil => rfl
  | cons a t ih => simp [List.foldr, ih]

/-- The `fetchall` strategy is the `iterate` strategy. -/
theorem runFetchall_eq_runIterate (jf : ℕ → ℚ) (sch : Schema) (st : BState)
    (rows : List Row) :
    runFetchall jf sch st rows = runIterate jf sch st rows := by
  unfold runFetchall runIterate
  rw [foldr_cons_nil]

/-- The batched loop stops immediately on an exhausted cursor. -/
theorem runFetchmany_nil (jf : ℕ → ℚ) (sch : Schema) (b : ℤ) (st : BState) :
    runFetchmany jf sch b st [] = st := by
  unfold runFetchmany
  by_cases hb : b ≤ 0 <;> simp [fetchManyChunk, hb]

/-- With a non-positive batch size, `fetchmany` returns all remaining rows
at once, so the batched loop still processes every row in order. -/
theorem runFetchmany_nonpos_eq (jf : ℕ → ℚ) (sch : Schema) (b : ℤ)
    (hb : b ≤ 0) (st : BState) (rows : List Row) :
    runFetchmany jf sch b st rows = runIterate jf sch st rows := by
  cases rows with
  | nil => rw [runFetchmany_nil]; rfl
  | cons a t =>
    unfold runFetchmany
    simp only [fetchManyChunk, if_pos hb, List.isEmpty_cons, dite_false,
      Bool.false_eq_true]
    rw [runFetchmany_nil]
    rfl

/-- With a positive batch size, the batched loop processes exactly the row
sequence of the `iterate` strategy. -/
theorem runFetchmany_pos_eq (jf : ℕ → ℚ) (sch : Schema) (b : ℤ) (hb : 0 < b)
    (rows : List Row) (st : BState) :
    runFetchmany jf sch b st rows = runIterate jf sch st rows := by
  have hble : ¬ b ≤ 0 := not_le.mpr hb
  have hbn : 0 < b.toNat := by omega
  have main : ∀ (n : ℕ) (rows : List Row), rows.length ≤ n → ∀ st : BState,
      runFetchmany jf sch b st rows = runIterate jf sch st rows := by
    intro n
    induction n with
    | zero =>
      intro rows hlen st
      have hnil : rows = [] := List.length_eq_zero.mp (Nat.le_zero.mp hlen)
      subst hnil
      rw [runFetchmany_nil]
      rfl
    | succ n ih =>
      intro rows hlen st
      cases rows with
      | nil => rw [runFetchmany_nil]; rfl
      | cons a t =>
        unfold runFetchmany
        have htake : (fetchManyChunk b (a :: t)).1 = (a :: t).take b.toNat := by
          simp [fetchManyChunk, hble]
        have hdrop : (fetchManyChunk b (a :: t)).2 = (a :: t).drop b.toNat := by
          simp [fetchManyChunk, hble]
        have hne : (fetchManyChunk b (a :: t)).1.isEmpty = false := by
          rw [htake]
          cases hbt : b.toNat with
          | zero => omega
          | succ k => simp [List.take]
        rw [dif_neg (by simp [hne])]
        have hlen2 : (fetchManyChunk b (a :: t)).2.length ≤ n := by
          rw [hdrop]
          simp only [List.length_drop, List.length_cons]
          simp only [List.length_cons] at hlen
          omega
        rw [ih (fetchManyChunk b (a :: t)).2 hlen2]
        unfold runIterate
        rw [htake, hdrop, ← List.foldl_append, List.take_append_drop]
  exact main rows.length rows le_rfl st

/-- The jitter-independent signature of a marker: its radius band and the
raw id and type cells. -/
def markerSig (m : Marker) : ℚ × Cell × Cell := (m.radius, m.project_id, m.project_type)

/-- Two loop states agreeing on everything except marker jitter: equal row
counters, random cursors and counting tables, and markers equal up to the
jitter offsets. -/
def SigEq (st st' : BState) : Prop :=
  st.total = st'.total ∧ st.rng = st'.rng ∧
  st.srcCounts = st'.srcCounts ∧ st.typeCounts = st'.typeCounts ∧
  st.ctryCounts = st'.ctryCounts ∧
  st.markers.map markerSig = st'.markers.map markerSig

/-- `SigEq` is reflexive. -/
theorem sigEq_refl (st : BState) : SigEq st st := ⟨rfl, rfl, rfl, rfl, rfl, rfl⟩

/-- The counting logic preserves `SigEq`. -/
theorem countRow_sigEq (sch : Schema) (row : Row) {st st' : BState}
    (h : SigEq st st') : SigEq (countRow sch row st) (countRow sch row st') := by
  obtain ⟨h1, h2, h3, h4, h5, h6⟩ := h
  exact ⟨h1, h2, by simp [countRow, h3], by simp [countRow, h4],
         by simp [countRow, h5], h6⟩

/-- One `process_row` step preserves `SigEq` across different random
streams: the jitter can only move the latitude and longitude. -/
theorem processRow_sigEq (jf jf' : ℕ → ℚ) (sch : Schema) (row : Row)
    {st st' : BState} (h : SigEq st st') :
    SigEq (processRow jf sch st row) (processRow jf' sch st' row) := by
  obtain ⟨h1, h2, h3, h4, h5, h6⟩ := h
  cases hc : markerCore sch row with
  | ok la lo e pid pty =>
    rw [processRow_of_core_ok jf sch st row la lo e pid pty hc,
        processRow_of_core_ok jf' sch st' row la lo e pid pty hc]
    apply countRow_sigEq
    refine ⟨by simp [h1], by simp [h2], h3, h4, h5, ?_⟩
    simp only [List.map_append, h6, List.map_cons, List.map_nil, markerSig]
  | earlyReturn =>
    rw [processRow_of_core_early jf sch st row hc,
        processRow_of_core_early jf' sch st' row hc]
    exact ⟨by simp [h1], h2, h3, h4, h5, h6⟩
  | excNoRand =>
    rw [processRow_of_core_excNoRand jf sch st row hc,
        processRow_of_core_excNoRand jf' sch st' row hc]
    exact countRow_sigEq sch row ⟨by simp [h1], h2, h3, h4, h5, h6⟩
  | excRand =>
    rw [processRow_of_core_excRand jf sch st row hc,
        processRow_of_core_excRand jf' sch st' row hc]
    exact countRow_sigEq sch row ⟨by simp [h1], by simp [h2], h3, h4, h5, h6⟩

/-- The whole iterate loop preserves `SigEq` across different random
streams. -/
theorem runIterate_sigEq (jf jf' : ℕ → ℚ) (sch : Schema) (rows : List Row)
    {st st' : BState} (h : SigEq st st') :
    SigEq (runIterate jf sch st rows) (runIterate jf' sch st' rows) := by
  induction rows generalizing st st' with
  | nil => exact h
  | cons a t ih => exact ih (processRow_sigEq jf jf' sch a h)

/-- A fully valid row: one separator, two numeric tokens, numeric
emission, non-null id and type, non-empty source and country. -/
def goodRow : Row :=
  { geolocation := Cell.text "1.5,2.5", emissions := Cell.num 100,
    project_id := Cell.text "P1", project_type := Cell.text "Forestry",
    sourceDB := Cell.text "Verra", country := Cell.text "Kenya" }

/-- `goodRow` with a null project id. -/
def noPidRow : Row := { goodRow with project_id := Cell.null }

/-- `goodRow` with a null geolocation. -/
def nullGeoRow : Row := { goodRow with geolocation := Cell.null }

/-- `goodRow` with an unparseable latitude token. -/
def badLatRow : Row := { goodRow with geolocation := Cell.text "abc,2.5" }

/-- Recognizer for the validated core outcome. -/
def coreIsOk : CoreOutcome → Bool
  | CoreOutcome.ok _ _ _ _ _ => true
  | _ => false

/-- A core outcome that is not recognized as validated is not an `ok`. -/
theorem not_ok_of_coreIsOk_false {sch : Schema} {row : Row}
    (h : coreIsOk (markerCore sch row) = false) :
    ∀ la lo e pid pty, markerCore sch row ≠ CoreOutcome.ok la lo e pid pty := by
  intro la lo e pid pty hx
  rw [hx] at h
  simp [coreIsOk] at h

/-- The marker emitted by a validated champion attempt, explicitly. -/
theorem markerAttempt_marker_eq (sch : Schema) (row : Row) (j : ℚ) (m : Marker)
    (la lo e : ℚ) (pid pty : Cell)
    (hc : markerCore sch row = CoreOutcome.ok la lo e pid pty)
    (hm : markerAttempt sch row j = RowOutcome.marker m) :
    m = { lat := la + j, lon := lo + j, radius := _radius e,
          project_id := pid, project_type := pty } := by
  simp only [markerAttempt, hc, RowOutcome.marker.injEq] at hm
  exact hm.symm

/-- The marker emitted by a validated batch attempt, explicitly. -/
theorem create_marker_some_eq (sch : Schema) (row : Row) (j1 j2 : ℚ)
    (mb : Marker) (la lo e : ℚ) (pid pty : Cell)
    (hbc : batchCore sch row = some (la, lo, e, pid, pty))
    (hmb : create_marker_data sch row j1 j2 = some mb) :
    mb = { lat := la + j1, lon := lo + j2, radius := _radius e,
           project_id := pid, project_type := pty } := by
  simp only [create_marker_data, hbc, Option.some.injEq] at hmb
  exact hmb.symm

/-- A batch marker can only be produced from a non-null project id. -/
theorem pid_ne_null_of_create_some (sch : Schema) (row : Row) (j1 j2 : ℚ)
    (mb : Marker) (hmb : create_marker_data sch row j1 j2 = some mb) :
    row.project_id ≠ Cell.null := by
  intro hp
  simp only [create_marker_data, batchCore_none_of_pid_null sch row hp] at hmb
  exact nomatch hmb

unseal Rat.mul Rat.inv Rat.add Rat.sub Rat.ofScientific in
/-- C2 counterexample: `noPidRow` has a geolocation with exactly one
separator and two numeric tokens and a non-null numeric emission, yet the
batch variant `create_marker_data` produces no marker, because the row's
project id is null — refuting the claim as stated. -/
theorem marker_synthesis_pid_counterexample :
    noPidRow.geolocation = Cell.text "1.5,2.5" ∧
    ("1.5,2.5" : String).data = ("1.5" : String).data ++ ',' :: ("2.5" : String).data ∧
    (',' ∉ ("1.5" : String).data) ∧
    pyFloatOfChars ("1.5" : String).data = some (3 / 2) ∧
    pyFloatOfChars ("2.5" : String).data = some (5 / 2) ∧
    pyFloatOfCell noPidRow.emissions = some 100 ∧
    create_marker_data fullSchema noPidRow 0 0 = none := by
  refine ⟨rfl, rfl, by decide, by decide, by decide, by decide, by decide⟩

/-- C2 (amended): marker synthesis emits exactly one marker on a row
whose text geolocation splits at its first (only) separator into two
parseable tokens and whose emission parses, with the radius given by the
banding function and the id and type cells passed through unchanged — in
the batch variant under the additional precondition that the project id
is non-null (null id yields no marker); rows with a null geolocation, a
separator-free geolocation, or a null emission yield no marker in either
variant. -/
theorem marker_synthesis_amended (jf : ℕ → ℚ) (st : BState) (row : Row)
    (s : String) (latC lonC : List Char) (la lo e j1 j2 : ℚ) :
    (row.geolocation = Cell.text s → s.data = latC ++ ',' :: lonC →
     ',' ∉ latC → pyFloatOfCell row.emissions = some e →
     pyFloatOfChars latC = some la → pyFloatOfChars lonC = some lo →
       (processRow jf fullSchema st row).markers =
         st.markers ++
           [{ lat := la + jitterOf (jf st.rng), lon := lo + jitterOf (jf st.rng),
              radius := _radius e, project_id := row.project_id,
              project_type := row.project_type }] ∧
       create_marker_data fullSchema row j1 j2 =
         (if row.project_id = Cell.null then none
          else some { lat := la + j1, lon := lo + j2, radius := _radius e,
                      project_id := row.project_id,
                      project_type := row.project_type })) ∧
    (row.geolocation = Cell.null →
       (processRow jf fullSchema st row).markers = st.markers ∧
       create_marker_data fullSchema row j1 j2 = none) ∧
    (row.geolocation = Cell.text s → splitFirst ',' s.data = none →
       (processRow jf fullSchema st row).markers = st.markers ∧
       create_marker_data fullSchema row j1 j2 = none) ∧
    (row.emissions = Cell.null →
       (processRow jf fullSchema st row).markers = st.markers ∧
       create_marker_data fullSchema row j1 j2 = none) := by
  refine ⟨fun hgeo hs hnc he hla hlo => ?_, fun hg => ?_,
          fun hg hsp => ?_, fun he => ?_⟩
  · have hc := markerCore_ok_of row s latC lonC la lo e hgeo hs hnc he hla hlo
    constructor
    · rw [processRow_of_core_ok jf fullSchema st row la lo e row.project_id
            row.project_type hc, countRow_markers]
    · by_cases hpid : row.project_id = Cell.null
      · rw [if_pos hpid]
        simp [create_marker_data, batchCore_none_of_pid_null fullSchema row hpid]
      · rw [if_neg hpid]
        simp [create_marker_data,
              batchCore_ok_of row s latC lonC la lo e hgeo hs hnc he hla hlo hpid]
  · constructor
    · apply processRow_markers_of_not_ok
      intro la' lo' e' pid' pty'
      rw [markerCore_early_of_geo_null fullSchema row rfl rfl hg]
      exact fun hx => nomatch hx
    · simp [create_marker_data, batchCore_none_of_geo_null fullSchema row hg]
  · constructor
    · apply processRow_markers_of_not_ok
      intro la' lo' e' pid' pty'
      rw [markerCore_early_of_no_sep fullSchema row s rfl rfl hg hsp]
      exact fun hx => nomatch hx
    · simp [create_marker_data, batchCore_none_of_no_sep fullSchema row s hg hsp]
  · constructor
    · exact processRow_markers_of_not_ok jf fullSchema st row
        (markerCore_ne_ok_of_emis_null fullSchema row he)
    · simp [create_marker_data, batchCore_none_of_emis_null fullSchema row he]

unseal Rat.mul Rat.inv Rat.add Rat.sub Rat.ofScientific in
/-- Witness for C2: the amended statement applied to the concrete rows
`goodRow` (both variants emit one marker), `nullGeoRow` (no marker) and
`noPidRow` (no marker from the batch variant). -/
theorem marker_synthesis_amended_witness :
    ((processRow (fun _ => 1 / 2) fullSchema initState goodRow).markers =
      initState.markers ++
        [{ lat := 3 / 2 + jitterOf ((fun _ : ℕ => (1 : ℚ) / 2) initState.rng),
           lon := 5 / 2 + jitterOf ((fun _ : ℕ => (1 : ℚ) / 2) initState.rng),
           radius := _radius 100, project_id := goodRow.project_id,
           project_type := goodRow.project_type }]) ∧
    create_marker_data fullSchema goodRow (1 / 20000) 0 =
      some { lat := 3 / 2 + 1 / 20000, lon := 5 / 2 + 0, radius := _radius 100,
             project_id := goodRow.project_id,
             project_type := goodRow.project_type } ∧
    (processRow (fun _ => 1 / 2) fullSchema initState nullGeoRow).markers =
      initState.markers ∧
    create_marker_data fullSchema noPidRow 0 0 = none := by
  have hGood := marker_synthesis_amended (fun _ => 1 / 2) initState goodRow
    "1.5,2.5" ("1.5" : String).data ("2.5" : String).data (3 / 2) (5 / 2) 100
    (1 / 20000) 0
  have hGood1 := hGood.1 rfl rfl (by decide) (by decide) (by decide) (by decide)
  have hNull := marker_synthesis_amended (fun _ => 1 / 2) initState nullGeoRow
    "" [] [] 0 0 0 0 0
  have hPid := marker_synthesis_amended (fun _ => 1 / 2) initState noPidRow
    "1.5,2.5" ("1.5" : String).data ("2.5" : String).data (3 / 2) (5 / 2) 100 0 0
  have hPid1 := hPid.1 rfl rfl (by decide) (by decide) (by decide) (by decide)
  refine ⟨hGood1.1, ?_, (hNull.2.1 rfl).1, ?_⟩
  · have h2 := hGood1.2
    rw [if_neg (by decide : ¬ goodRow.project_id = Cell.null)] at h2
    exact h2
  · have h2 := hPid1.2
    rw [if_pos (show noPidRow.project_id = Cell.null by rfl)] at h2
    exact h2

/-- The source-counting table after one `process_row` step: unchanged on
the early `return`, otherwise bumped at the row's source value when the
column resolved and the value is truthy. -/
theorem processRow_srcCounts (jf : ℕ → ℚ) (sch : Schema) (st : BState) (row : Row) :
    (processRow jf sch st row).srcCounts =
      if markerCore sch row = CoreOutcome.earlyReturn then st.srcCounts
      else if sch.hasSource && truthy row.sourceDB then bump st.srcCounts row.sourceDB
      else st.srcCounts := by
  cases hc : markerCore sch row with
  | ok la lo e pid pty =>
    rw [processRow_of_core_ok jf sch st row la lo e pid pty hc]
    simp [countRow, hc]
  | earlyReturn =>
    rw [processRow_of_core_early jf sch st row hc]
    simp
  | excNoRand =>
    rw [processRow_of_core_excNoRand jf sch st row hc]
    simp [countRow, hc]
  | excRand =>
    rw [processRow_of_core_excRand jf sch st row hc]
    simp [countRow, hc]

/-- The type-counting table after one `process_row` step. -/
theorem processRow_typeCounts (jf : ℕ → ℚ) (sch : Schema) (st : BState) (row : Row) :
    (processRow jf sch st row).typeCounts =
      if markerCore sch row = CoreOutcome.earlyReturn then st.typeCounts
      else if sch.hasType && truthy row.project_type then bump st.typeCounts row.project_type
      else st.typeCounts := by
  cases hc : markerCore sch row with
  | ok la lo e pid pty =>
    rw [processRow_of_core_ok jf sch st row la lo e pid pty hc]
    simp [countRow, hc]
  | earlyReturn =>
    rw [processRow_of_core_early jf sch st row hc]
    simp
  | excNoRand =>
    rw [processRow_of_core_excNoRand jf sch st row hc]
    simp [countRow, hc]
  | excRand =>
    rw [processRow_of_core_excRand jf sch st row hc]
    simp [countRow, hc]

/-- The country-counting table after one `process_row` step. -/
theorem processRow_ctryCounts (jf : ℕ → ℚ) (sch : Schema) (st : BState) (row : Row) :
    (processRow jf sch st row).ctryCounts =
      if markerCore sch row = CoreOutcome.earlyReturn then st.ctryCounts
      else if sch.hasCountry && truthy row.country then bump st.ctryCounts row.country
      else st.ctryCounts := by
  cases hc : markerCore sch row with
  | ok la lo e pid pty =>
    rw [processRow_of_core_ok jf sch st row la lo e pid pty hc]
    simp [countRow, hc]
  | earlyReturn =>
    rw [processRow_of_core_early jf sch st row hc]
    simp
  | excNoRand =>
    rw [processRow_of_core_excNoRand jf sch st row hc]
    simp [countRow, hc]
  | excRand =>
    rw [processRow_of_core_excRand jf sch st row hc]
    simp [countRow, hc]

/-- C3: for the same row sequence, the three fetch strategies — single-row
iteration, full materialization, and positive-size batch pulls repeated
until an empty batch — produce identical final states (same total row
count, same three counting tables, same marker sequence), and across any
two random streams the totals, the counting tables and the marker
sequences up to jitter (radius, project id, project type) coincide. -/
theorem fetch_strategies_equivalent (jf jf' : ℕ → ℚ) (sch : Schema)
    (rows : List Row) (b : ℤ) (hb : 0 < b) :
    runFetchall jf sch initState rows = runIterate jf sch initState rows ∧
    runFetchmany jf sch b initState rows = runIterate jf sch initState rows ∧
    (runIterate jf sch initState rows).total =
      (runIterate jf' sch initState rows).total ∧
    (runIterate jf sch initState rows).srcCounts =
      (runIterate jf' sch initState rows).srcCounts ∧
    (runIterate jf sch initState rows).typeCounts =
      (runIterate jf' sch initState rows).typeCounts ∧
    (runIterate jf sch initState rows).ctryCounts =
      (runIterate jf' sch initState rows).ctryCounts ∧
    (runIterate jf sch initState rows).markers.map markerSig =
      (runIterate jf' sch initState rows).markers.map markerSig := by
  obtain ⟨h1, h2, h3, h4, h5, h6⟩ := runIterate_sigEq jf jf' sch rows (sigEq_refl initState)
  exact ⟨runFetchall_eq_runIterate jf sch initState rows,
         runFetchmany_pos_eq jf sch b hb rows initState, h1, h3, h4, h5, h6⟩

/-- Witness for C3 on a concrete two-row sequence, batch size 2, and two
different random streams. -/
theorem fetch_strategies_equivalent_witness :
    runFetchmany (fun _ => 0) fullSchema 2 initState [goodRow, noPidRow] =
      runIterate (fun _ => 0) fullSchema initState [goodRow, noPidRow] ∧
    (runIterate (fun _ => 0) fullSchema initState [goodRow, noPidRow]).markers.map markerSig =
      (runIterate (fun _ => 1 / 2) fullSchema initState [goodRow, noPidRow]).markers.map markerSig := by
  have h := fetch_strategies_equivalent (fun _ => 0) (fun _ => 1 / 2) fullSchema
    [goodRow, noPidRow] 2 (by decide)
  exact ⟨h.2.1, h.2.2.2.2.2.2⟩

unseal Rat.mul Rat.inv Rat.add Rat.sub Rat.ofScientific in
/-- C4 counterexample: `nullGeoRow` fails marker validation (null
geolocation) and has non-empty source, type and country values under the
full schema, yet after champion `process_row` all three counting tables
are still empty at those values: the early `return` inside the `try`
block skips the counting logic, so aggregation does not run for every
row. -/
theorem counting_skipped_counterexample :
    truthy nullGeoRow.sourceDB = true ∧ fullSchema.hasSource = true ∧
    truthy nullGeoRow.project_type = true ∧ fullSchema.hasType = true ∧
    truthy nullGeoRow.country = true ∧ fullSchema.hasCountry = true ∧
    (processRow (fun _ => 0) fullSchema initState nullGeoRow).total = 1 ∧
    (processRow (fun _ => 0) fullSchema initState nullGeoRow).srcCounts
      (Cell.text "Verra") = 0 ∧
    (processRow (fun _ => 0) fullSchema initState nullGeoRow).typeCounts
      (Cell.text "Forestry") = 0 ∧
    (processRow (fun _ => 0) fullSchema initState nullGeoRow).ctryCounts
      (Cell.text "Kenya") = 0 := by
  refine ⟨rfl, rfl, rfl, rfl, rfl, rfl, by decide, by decide, by decide, by decide⟩

/-- C4 (amended): the frequency-aggregation step runs for every row
except those taking the early `return` of the validation check (falsy or
comma-less geolocation, or null emission), for which all three tables are
left unchanged; rows whose parse fails by a caught exception are still
counted. Whenever it runs, each designated field whose column resolved
and whose value is truthy has that value's count incremented by exactly
one, all other keys are unchanged, and no count is ever decremented. -/
theorem frequency_counting_amended (jf : ℕ → ℚ) (sch : Schema) (st : BState)
    (row : Row) :
    (markerCore sch row ≠ CoreOutcome.earlyReturn →
      (sch.hasSource = true → truthy row.sourceDB = true →
        (processRow jf sch st row).srcCounts row.sourceDB =
          st.srcCounts row.sourceDB + 1 ∧
        ∀ k, k ≠ row.sourceDB →
          (processRow jf sch st row).srcCounts k = st.srcCounts k) ∧
      (sch.hasType = true → truthy row.project_type = true →
        (processRow jf sch st row).typeCounts row.project_type =
          st.typeCounts row.project_type + 1 ∧
        ∀ k, k ≠ row.project_type →
          (processRow jf sch st row).typeCounts k = st.typeCounts k) ∧
      (sch.hasCountry = true → truthy row.country = true →
        (processRow jf sch st row).ctryCounts row.country =
          st.ctryCounts row.country + 1 ∧
        ∀ k, k ≠ row.country →
          (processRow jf sch st row).ctryCounts k = st.ctryCounts k)) ∧
    (markerCore sch row = CoreOutcome.earlyReturn →
      (processRow jf sch st row).srcCounts = st.srcCounts ∧
      (processRow jf sch st row).typeCounts = st.typeCounts ∧
      (processRow jf sch st row).ctryCounts = st.ctryCounts) ∧
    (∀ k, st.srcCounts k ≤ (processRow jf sch st row).srcCounts k) ∧
    (∀ k, st.typeCounts k ≤ (processRow jf sch st row).typeCounts k) ∧
    (∀ k, st.ctryCounts k ≤ (processRow jf sch st row).ctryCounts k) := by
  refine ⟨fun hne => ⟨fun hp ht => ?_, fun hp ht => ?_, fun hp ht => ?_⟩,
          fun he => ?_, fun k => ?_, fun k => ?_, fun k => ?_⟩
  · rw [processRow_srcCounts, if_neg hne, if_pos (by simp [hp, ht])]
    exact ⟨bump_self st.srcCounts row.sourceDB,
           fun k hk => bump_other st.srcCounts row.sourceDB k hk⟩
  · rw [processRow_typeCounts, if_neg hne, if_pos (by simp [hp, ht])]
    exact ⟨bump_self st.typeCounts row.project_type,
           fun k hk => bump_other st.typeCounts row.project_type k hk⟩
  · rw [processRow_ctryCounts, if_neg hne, if_pos (by simp [hp, ht])]
    exact ⟨bump_self st.ctryCounts row.country,
           fun k hk => bump_other st.ctryCounts row.country k hk⟩
  · rw [processRow_srcCounts, processRow_typeCounts, processRow_ctryCounts]
    rw [if_pos he, if_pos he, if_pos he]
    exact ⟨rfl, rfl, rfl⟩
  · rw [processRow_srcCounts]
    split_ifs <;> first | exact le_rfl | exact bump_le st.srcCounts row.sourceDB k
  · rw [processRow_typeCounts]
    split_ifs <;> first | exact le_rfl | exact bump_le st.typeCounts row.project_type k
  · rw [processRow_ctryCounts]
    split_ifs <;> first | exact le_rfl | exact bump_le st.ctryCounts row.country k

unseal Rat.mul Rat.inv Rat.add Rat.sub Rat.ofScientific in
/-- Witness for C4: at `badLatRow` (latitude parse fails by exception, so
counting runs) the source count of `"Verra"` goes from 0 to 1, and at
`nullGeoRow` (early return) all tables are unchanged. -/
theorem frequency_counting_amended_witness :
    (processRow (fun _ => 0) fullSchema initState badLatRow).srcCounts
      badLatRow.sourceDB = initState.srcCounts badLatRow.sourceDB + 1 ∧
    (processRow (fun _ => 0) fullSchema initState nullGeoRow).srcCounts =
      initState.srcCounts := by
  have hBad := frequency_counting_amended (fun _ => 0) fullSchema initState badLatRow
  have hNull := frequency_counting_amended (fun _ => 0) fullSchema initState nullGeoRow
  exact ⟨((hBad.1 (by decide)).1 rfl rfl).1, (hNull.2.1 (by decide)).1⟩

unseal Rat.mul Rat.inv Rat.add Rat.sub Rat.ofScientific in
/-- C5 counterexample: with batch size 0 the run is not rejected — no
validation exists and `fetchmany` with a non-positive size returns all
remaining rows — so the single row of this run is fetched and processed
(row counter 1, one marker), refuting both the required setup error and
the alternative of silently completing with zero rows. -/
theorem batch_size_not_rejected_counterexample :
    (runFetchmany (fun _ => 0) fullSchema 0 initState [goodRow]).total = 1 ∧
    (runFetchmany (fun _ => 0) fullSchema 0 initState [goodRow]).markers.length = 1 := by
  rw [runFetchmany_nonpos_eq (fun _ => 0) fullSchema 0 le_rfl initState [goodRow]]
  exact ⟨by decide, by decide⟩

/-- C5 (amended): a non-positive batch size is not rejected at setup;
`fetchmany` then returns all remaining rows in one chunk, so the batched
loop silently processes exactly the same row sequence as the `iterate`
strategy rather than raising an error or processing zero rows. -/
theorem nonpositive_batch_processes_all (jf : ℕ → ℚ) (sch : Schema) (b : ℤ)
    (hb : b ≤ 0) (st : BState) (rows : List Row) :
    runFetchmany jf sch b st rows = runIterate jf sch st rows :=
  runFetchmany_nonpos_eq jf sch b hb st rows

/-- Witness for C5 at batch size `-3` on a concrete row list. -/
theorem nonpositive_batch_processes_all_witness :
    runFetchmany (fun _ => 0) fullSchema (-3) initState [goodRow, nullGeoRow] =
      runIterate (fun _ => 0) fullSchema initState [goodRow, nullGeoRow] :=
  nonpositive_batch_processes_all (fun _ => 0) fullSchema (-3) (by decide)
    initState [goodRow, nullGeoRow]

/-- The champion variant computes `jitter = rand() * 2e-4 - 1e-4` once
per row and adds the same value to both coordinates: for every schema,
row and jitter value, any marker champion `process_row` can emit has its
latitude offset equal to its longitude offset, both taken relative to the
parsed coordinates of its validated row. -/
def championSharedOffset : Prop :=
  ∀ (sch : Schema) (row : Row) (j : ℚ) (m : Marker) (la lo e : ℚ) (pid pty : Cell),
    markerCore sch row = CoreOutcome.ok la lo e pid pty →
    markerAttempt sch row j = RowOutcome.marker m →
    m.lat - la = m.lon - lo

unseal Rat.mul Rat.inv Rat.add Rat.sub Rat.ofScientific in
/-- C6 counterexample: in champion `process_row` the latitude and
longitude offsets of one marker are always equal — a single shared draw —
for every row, schema and draw, refuting the claim that the two offsets
are independent and not constrained to be equal; the second conjunct
shows markers are actually emitted (here at `noPidRow`, a null-project-id
row on which only the champion variant emits), so the constraint is not
vacuous. -/
theorem jitter_shared_counterexample :
    championSharedOffset ∧
    markerAttempt fullSchema noPidRow (jitterOf 1) =
      RowOutcome.marker
        { lat := 3 / 2 + jitterOf 1, lon := 5 / 2 + jitterOf 1, radius := 10,
          project_id := Cell.null, project_type := Cell.text "Forestry" } := by
  constructor
  · intro sch row j m la lo e pid pty hc hm
    rw [markerAttempt_marker_eq sch row j m la lo e pid pty hc hm]
    show la + j - la = lo + j - lo
    ring
  · decide

/-- C6 (amended): on any row that validates, every marker the champion
variant emits — for every jitter value and regardless of the project id —
carries one shared offset `j` on both coordinates, so its two offsets are
always equal; whenever the batch variant emits, its two offsets are the
two independent uniform draws (`lat` gets `j1`, `lon` gets `j2`). -/
theorem jitter_amended (row : Row) (s : String) (latC lonC : List Char)
    (la lo e : ℚ)
    (hgeo : row.geolocation = Cell.text s)
    (hs : s.data = latC ++ ',' :: lonC)
    (hnc : ',' ∉ latC)
    (he : pyFloatOfCell row.emissions = some e)
    (hla : pyFloatOfChars latC = some la)
    (hlo : pyFloatOfChars lonC = some lo) :
    (∀ (j : ℚ) (m : Marker),
       markerAttempt fullSchema row j = RowOutcome.marker m →
       m.lat = la + j ∧ m.lon = lo + j ∧ m.lat - la = m.lon - lo) ∧
    (∀ (j1 j2 : ℚ) (mb : Marker),
       create_marker_data fullSchema row j1 j2 = some mb →
       mb.lat = la + j1 ∧ mb.lon = lo + j2) := by
  have hc := markerCore_ok_of row s latC lonC la lo e hgeo hs hnc he hla hlo
  constructor
  · intro j m hm
    rw [markerAttempt_marker_eq fullSchema row j m la lo e row.project_id
          row.project_type hc hm]
    refine ⟨rfl, rfl, ?_⟩
    show la + j - la = lo + j - lo
    ring
  · intro j1 j2 mb hmb
    have hpid := pid_ne_null_of_create_some fullSchema row j1 j2 mb hmb
    have hbc := batchCore_ok_of row s latC lonC la lo e hgeo hs hnc he hla hlo hpid
    rw [create_marker_some_eq fullSchema row j1 j2 mb la lo e row.project_id
          row.project_type hbc hmb]
    exact ⟨rfl, rfl⟩

/-- The champion marker emitted at `noPidRow` for jitter value 1/10000:
on this null-project-id row the batch variant never emits, the champion
does. -/
def champNoPidMarker : Marker :=
  { lat := 3 / 2 + 1 / 10000, lon := 5 / 2 + 1 / 10000, radius := 10,
    project_id := Cell.null, project_type := Cell.text "Forestry" }

/-- The batch marker emitted at `goodRow` for the draws 1/20000 and
-(1/20000). -/
def batchGoodMarker : Marker :=
  { lat := 3 / 2 + 1 / 20000, lon := 5 / 2 + -(1 / 20000), radius := 10,
    project_id := Cell.text "P1", project_type := Cell.text "Forestry" }

unseal Rat.mul Rat.inv Rat.add Rat.sub Rat.ofScientific in
/-- Witness for C6: the champion conclusion exercised at `noPidRow`
(where only the champion emits) with shared jitter value 1/10000, and the
batch conclusion at `goodRow` with the two distinct draws 1/20000 and
-(1/20000). -/
theorem jitter_amended_witness :
    (champNoPidMarker.lat = 3 / 2 + 1 / 10000 ∧
     champNoPidMarker.lon = 5 / 2 + 1 / 10000 ∧
     champNoPidMarker.lat - 3 / 2 = champNoPidMarker.lon - 5 / 2) ∧
    (batchGoodMarker.lat = 3 / 2 + 1 / 20000 ∧
     batchGoodMarker.lon = 5 / 2 + -(1 / 20000)) :=
  ⟨(jitter_amended noPidRow "1.5,2.5" ("1.5" : String).data ("2.5" : String).data
      (3 / 2) (5 / 2) 100 rfl rfl (by decide) (by decide) (by decide) (by decide)).1
      (1 / 10000) champNoPidMarker (by decide),
   (jitter_amended goodRow "1.5,2.5" ("1.5" : String).data ("2.5" : String).data
      (3 / 2) (5 / 2) 100 rfl rfl (by decide) (by decide) (by decide) (by decide)).2
      (1 / 20000) (-(1 / 20000)) batchGoodMarker (by decide)⟩

/-- C7: every marker produced from a validated row stays within 1e-4 of
the parsed true coordinates, separately in each variant: every champion
marker, for every draw `rand()` in `[0, 1]` and regardless of the project
id, and every batch marker, for uniform draws in `[-1e-4, 1e-4]`. -/
theorem jitter_bound (row : Row) (s : String) (latC lonC : List Char)
    (la lo e : ℚ)
    (hgeo : row.geolocation = Cell.text s)
    (hs : s.data = latC ++ ',' :: lonC)
    (hnc : ',' ∉ latC)
    (he : pyFloatOfCell row.emissions = some e)
    (hla : pyFloatOfChars latC = some la)
    (hlo : pyFloatOfChars lonC = some lo) :
    (∀ (r : ℚ) (m : Marker), 0 ≤ r → r ≤ 1 →
       markerAttempt fullSchema row (jitterOf r) = RowOutcome.marker m →
       |m.lat - la| ≤ 1 / 10000 ∧ |m.lon - lo| ≤ 1 / 10000) ∧
    (∀ (j1 j2 : ℚ) (mb : Marker),
       -(1 / 10000) ≤ j1 → j1 ≤ 1 / 10000 →
       -(1 / 10000) ≤ j2 → j2 ≤ 1 / 10000 →
       create_marker_data fullSchema row j1 j2 = some mb →
       |mb.lat - la| ≤ 1 / 10000 ∧ |mb.lon - lo| ≤ 1 / 10000) := by
  have hc := markerCore_ok_of row s latC lonC la lo e hgeo hs hnc he hla hlo
  constructor
  · intro r m hr0 hr1 hm
    have hjb : |jitterOf r| ≤ 1 / 10000 := by
      rw [abs_le, jitterOf]
      constructor <;> nlinarith
    rw [markerAttempt_marker_eq fullSchema row (jitterOf r) m la lo e row.project_id
          row.project_type hc hm]
    exact ⟨by simpa using hjb, by simpa using hjb⟩
  · intro j1 j2 mb hj1l hj1u hj2l hj2u hmb
    have hpid := pid_ne_null_of_create_some fullSchema row j1 j2 mb hmb
    have hbc := batchCore_ok_of row s latC lonC la lo e hgeo hs hnc he hla hlo hpid
    rw [create_marker_some_eq fullSchema row j1 j2 mb la lo e row.project_id
          row.project_type hbc hmb]
    constructor
    · simp only [add_sub_cancel_left]
      rw [abs_le]
      exact ⟨by linarith, hj1u⟩
    · simp only [add_sub_cancel_left]
      rw [abs_le]
      exact ⟨by linarith, hj2u⟩

/-- The champion marker emitted at `noPidRow` for the draw
`rand() = 1/2`. -/
def champHalfMarker : Marker :=
  { lat := 3 / 2 + jitterOf (1 / 2), lon := 5 / 2 + jitterOf (1 / 2), radius := 10,
    project_id := Cell.null, project_type := Cell.text "Forestry" }

unseal Rat.mul Rat.inv Rat.add Rat.sub Rat.ofScientific in
/-- Witness for C7: the champion bound at `noPidRow` (null project id, so
the batch variant emits nothing there) for the draw `rand() = 1/2`, and
the batch bound at `goodRow` for the draws 1/20000 and -(1/20000). -/
theorem jitter_bound_witness :
    (|champHalfMarker.lat - 3 / 2| ≤ 1 / 10000 ∧
     |champHalfMarker.lon - 5 / 2| ≤ 1 / 10000) ∧
    (|batchGoodMarker.lat - 3 / 2| ≤ 1 / 10000 ∧
     |batchGoodMarker.lon - 5 / 2| ≤ 1 / 10000) :=
  ⟨(jitter_bound noPidRow "1.5,2.5" ("1.5" : String).data ("2.5" : String).data
      (3 / 2) (5 / 2) 100 rfl rfl (by decide) (by decide) (by decide) (by decide)).1
      (1 / 2) champHalfMarker (by decide) (by decide) (by decide),
   (jitter_bound goodRow "1.5,2.5" ("1.5" : String).data ("2.5" : String).data
      (3 / 2) (5 / 2) 100 rfl rfl (by decide) (by decide) (by decide) (by decide)).2
      (1 / 20000) (-(1 / 20000)) batchGoodMarker (by decide) (by decide) (by decide)
      (by decide) (by decide)⟩

/-- C8: with sources `["Verra", "GoldStandard"]` and no other filter the
built query is exactly the base SELECT plus one `IN`-list predicate with
`COLLATE NOCASE` and two placeholders, with exactly the two sources as
bound parameters and no other WHERE fragment; with an empty sources list
no WHERE clause is emitted at all, for any projection; the SELECT clause
quotes each projected column individually in the given order and selects
all columns (`*`) when the projection is empty. -/
theorem query_builder_spec :
    build_filter_query ["Verra", "GoldStandard"] [] =
      ("SELECT * FROM `mytable` WHERE `SourceDB` IN (?,?) COLLATE NOCASE",
       ["Verra", "GoldStandard"]) ∧
    (build_filter_query ["Verra", "GoldStandard"] []).2.length = 2 ∧
    (∀ cols : List String, build_filter_query [] cols =
      ("SELECT " ++ selectClause cols ++ " FROM `mytable`", [])) ∧
    selectClause [] = "*" ∧
    (∀ cols : List String, cols ≠ [] →
      selectClause cols = String.intercalate ", " (cols.map quoteCol)) ∧
    selectClause ["SourceDB", "geolocation"] = "`SourceDB`, `geolocation`" := by
  refine ⟨by decide, by decide, fun cols => ?_, rfl, fun cols hne => ?_, by decide⟩
  · simp [build_filter_query]
  · simp [selectClause, hne]

/-- Witness for C8: the projection facts instantiated at a concrete
non-empty column list. -/
theorem query_builder_spec_witness :
    build_filter_query [] ["Project_ID", "geolocation"] =
      ("SELECT " ++ selectClause ["Project_ID", "geolocation"] ++ " FROM `mytable`", []) ∧
    selectClause ["Project_ID", "geolocation"] =
      String.intercalate ", " (["Project_ID", "geolocation"].map quoteCol) := by
  have h := query_builder_spec
  exact ⟨h.2.2.1 ["Project_ID", "geolocation"],
         h.2.2.2.2.1 ["Project_ID", "geolocation"] (by decide)⟩

/-- C9: a row whose marker synthesis does not validate never disturbs the
pipeline: champion `process_row` leaves the marker list unchanged (the
parse failure is caught, not propagated, as every outcome of `markerCore`
is handled), the iterate loop simply continues with the remaining rows,
and in the batch variant a row mapped to `None` contributes nothing to
the chunk's marker list while all other rows are processed unchanged. -/
theorem row_decode_error_recovered (jf : ℕ → ℚ) (sch : Schema) (st : BState)
    (row : Row) (rest : List Row)
    (h : coreIsOk (markerCore sch row) = false) :
    (processRow jf sch st row).markers = st.markers ∧
    runIterate jf sch st (row :: rest) =
      runIterate jf sch (processRow jf sch st row) rest ∧
    ∀ (pre post : List (Row × ℚ × ℚ)) (j1 j2 : ℚ),
      create_marker_data sch row j1 j2 = none →
      markersOfChunk sch (pre ++ (row, j1, j2) :: post) =
        markersOfChunk sch pre ++ markersOfChunk sch post := by
  refine ⟨processRow_markers_of_not_ok jf sch st row (not_ok_of_coreIsOk_false h),
          rfl, ?_⟩
  intro pre post j1 j2 hnone
  unfold markersOfChunk
  rw [List.filterMap_append]
  simp [hnone]

unseal Rat.mul Rat.inv Rat.add Rat.sub Rat.ofScientific in
/-- Witness for C9 at `badLatRow`, whose latitude token does not parse:
no marker in the champion pipeline, the loop continues, and the batch
chunk around it keeps exactly the markers of the neighbouring rows. -/
theorem row_decode_error_recovered_witness :
    (processRow (fun _ => 0) fullSchema initState badLatRow).markers =
      initState.markers ∧
    runIterate (fun _ => 0) fullSchema initState (badLatRow :: [goodRow]) =
      runIterate (fun _ => 0) fullSchema
        (processRow (fun _ => 0) fullSchema initState badLatRow) [goodRow] ∧
    markersOfChunk fullSchema
        ([(goodRow, 0, 0)] ++ (badLatRow, 0, 0) :: [(goodRow, 0, 0)]) =
      markersOfChunk fullSchema [(goodRow, 0, 0)] ++
        markersOfChunk fullSchema [(goodRow, 0, 0)] := by
  have h := row_decode_error_recovered (fun _ => 0) fullSchema initState badLatRow
    [goodRow] (by decide)
  exact ⟨h.1, h.2.1, h.2.2 [(goodRow, 0, 0)] [(goodRow, 0, 0)] 0 0 (by decide)⟩

/-- C10: in the batch variant, `create_marker_data` returns `None` for
every row whose project id is null — for any schema, any jitter draws and
regardless of how well the geolocation and emission fields validate — so
a non-null project id is a genuine additional precondition for marker
emission in that variant. -/
theorem batch_pid_precondition (sch : Schema) (row : Row) (j1 j2 : ℚ)
    (h : row.project_id = Cell.null) :
    create_marker_data sch row j1 j2 = none := by
  simp [create_marker_data, batchCore_none_of_pid_null sch row h]

/-- Witness for C10 at `noPidRow`, whose geolocation and emission fields
are fully valid. -/
theorem batch_pid_precondition_witness :
    create_marker_data fullSchema noPidRow 0 0 = none :=
  batch_pid_precondition fullSchema noPidRow 0 0 rfl
